import Mathlib

/-!
Verification of the DocIQ document-extraction pipeline.

This file gives a shallow embedding, in Lean 4, of the validation,
merging and retry logic of the DocIQ repository, and proves (or refutes)
the behavioural claims made about it.

Modelling conventions:
* Python dictionaries become association lists that keep insertion order
  (List of key/value pairs), matching Python 3.7+ dict ordering.
* Python scalar values (None, bool, str, int/float) become the Prim
  inductive; JSON-style lists of scalars or of flat objects become
  Value.list over Elem.  This covers every value shape the pipeline
  actually builds or inspects.
* Python float arithmetic is modelled with exact rationals.
* Python float(...) on strings is modelled for plain decimal literals
  (optional sign, digits, optional fractional part), the only shapes the
  pipeline feeds it.
* Exceptions become Except results; external collaborators (the OCR text
  source, the Gemini / OpenAI model calls, and the regular-expression
  engine inside the deterministic extractors) are passed in explicitly
  as function parameters, exactly as the specification describes them
  (fallible capabilities).
-/

namespace DocIQ

/- The arithmetic of the pipeline is modelled over the rationals; the
kernel evaluation of concrete witnesses needs the four rational
operations below to unfold. -/
attribute [local semireducible] Rat.add Rat.mul Rat.inv Rat.sub

/-- Equality of Except results is decidable when both payload types
have decidable equality (used to evaluate the embedding on concrete
inputs). -/
instance {e a : Type} [DecidableEq e] [DecidableEq a] : DecidableEq (Except e a) :=
  fun x y =>
  match x, y with
  | .ok v, .ok w =>
      if h : v = w then .isTrue (by rw [h])
      else .isFalse (fun hc => h (by injection hc))
  | .error v, .error w =>
      if h : v = w then .isTrue (by rw [h])
      else .isFalse (fun hc => h (by injection hc))
  | .ok _, .error _ => .isFalse (fun hc => Except.noConfusion hc)
  | .error _, .ok _ => .isFalse (fun hc => Except.noConfusion hc)

/-- Python scalar values as they occur in extracted records:
None, booleans, strings and numbers (ints and floats, as rationals). -/
inductive Prim where
  | null
  | bool (b : Bool)
  | str (s : String)
  | num (q : ℚ)
deriving DecidableEq, Repr

/-- One element of a JSON-style list: either a scalar or a flat object
(a dictionary from string keys to scalars), which is the shape of the
line items, skills entries, education entries and so on. -/
inductive Elem where
  | prim (p : Prim)
  | obj (kvs : List (String × Prim))
deriving DecidableEq, Repr

/-- A field value of an extracted record: a scalar or a list. -/
inductive Value where
  | prim (p : Prim)
  | list (xs : List Elem)
deriving DecidableEq, Repr

/-- A flat object (for example one line item). -/
abbrev Item := List (String × Prim)

/-- An extracted record: an ordered mapping from field names to values,
modelling a Python dict. -/
abbrev RecordMap := List (String × Value)

/-- Dictionary lookup (Python: data.get(k) or the k-in-data test). -/
def lookup : RecordMap → String → Option Value
  | [], _ => none
  | (k0, v0) :: rest, k => if k0 = k then some v0 else lookup rest k

/-- Lookup with a default, as in Python data.get(k, default). -/
def lookupD (m : RecordMap) (k : String) (d : Value) : Value :=
  (lookup m k).getD d

/-- Lookup inside a flat object. -/
def itemLookup : Item → String → Option Prim
  | [], _ => none
  | (k0, v0) :: rest, k => if k0 = k then some v0 else itemLookup rest k

/-- Key-presence test inside a flat object (Python: k in item). -/
def itemHas (it : Item) (k : String) : Bool :=
  (itemLookup it k).isSome

/-- Python dict assignment d[k] = v: overwrites in place (keeping the
key position) when the key exists, appends otherwise. -/
def setKey : RecordMap → String → Value → RecordMap
  | [], k, v => [(k, v)]
  | (k0, v0) :: rest, k, v =>
      if k0 = k then (k0, v) :: rest else (k0, v0) :: setKey rest k v

/-- Python truthiness of a scalar: None, False, the empty string and 0
are falsy. -/
def Prim.falsy : Prim → Bool
  | .null => true
  | .bool b => !b
  | .str s => s = ""
  | .num q => q = 0

/-- Python truthiness of a field value: scalars as above, lists are
falsy exactly when empty. -/
def Value.falsy : Value → Bool
  | .prim p => p.falsy
  | .list xs => xs.isEmpty

/-- Whitespace characters as stripped by Python strip() and matched by
the whitespace regex class (the forms occurring in this pipeline). -/
def isWsChar (c : Char) : Bool :=
  c = ' ' || c = '\t' || c = '\n' || c = '\r'

/-- Python s.strip(), implemented structurally so that concrete inputs
evaluate inside the kernel. -/
def pyStrip (s : String) : String :=
  String.mk (((s.toList.dropWhile isWsChar).reverse.dropWhile isWsChar).reverse)

/-- Python s.split(chr): splitting on a single character; the empty
string yields one empty piece, as in Python. -/
def splitOnChar (c : Char) (s : String) : List String :=
  (s.toList.splitOnP (fun x => x = c)).map String.mk

/-- The line list of a text, Python text.split on the newline. -/
def splitLinesPy (text : String) : List String :=
  splitOnChar '\n' text

/-- Joining strings with a separator (structural). -/
def joinWith (sep : String) : List String → String
  | [] => ""
  | [x] => x
  | x :: rest => x ++ sep ++ joinWith sep rest

/-- Digits of a string read as a natural number (helper for the
decimal-literal model of Python float parsing). -/
def digitsToNat (cs : List Char) : ℕ :=
  cs.foldl (fun a c => a * 10 + (c.toNat - 48)) 0

/-- Magnitude part of a decimal literal: digits with at most one point
and at least one digit, as accepted by Python float(...). -/
def pyFloatMag (cs : List Char) : Option ℚ :=
  match cs.span (fun c => c ≠ '.') with
  | (intp, []) =>
      if intp ≠ [] ∧ intp.all Char.isDigit then some (digitsToNat intp) else none
  | (intp, _ :: frac) =>
      if (intp ≠ [] ∨ frac ≠ []) ∧ intp.all Char.isDigit ∧ frac.all Char.isDigit then
        some ((digitsToNat intp : ℚ) + (digitsToNat frac : ℚ) / (10 ^ frac.length))
      else none

/-- Python float(s) on a string, modelled for plain decimal literals:
surrounding whitespace, an optional sign, digits and an optional
fractional part.  Anything else is a parse failure (ValueError). -/
def pyFloat (s : String) : Option ℚ :=
  match (pyStrip s).toList with
  | '+' :: rest => pyFloatMag rest
  | '-' :: rest => (pyFloatMag rest).map Neg.neg
  | cs => pyFloatMag cs

/-- Python float(x) on a scalar: numbers pass through, booleans become
0 or 1, strings are parsed, None raises (here: none). -/
def Prim.toFloat : Prim → Option ℚ
  | .null => none
  | .bool b => some (if b then 1 else 0)
  | .str s => pyFloat s
  | .num q => some q

/-- Python float(x) on a field value: lists raise a TypeError. -/
def Value.toFloat : Value → Option ℚ
  | .prim p => p.toFloat
  | .list _ => none

/-! ## doc_pipeline/config/doc_config.py: schema validators -/

/-- Validation errors raised by the doc_config validators (Python raises
ValueError with a message; the constructors keep the data the messages
carry: the field name and document type for a missing required field,
and the line-item index for a malformed line item). -/
inductive VError where
  | requiredMissing (field : String) (docType : String)
  | itemNotDict (index : ℕ)
  | itemMissingName (index : ℕ)
  | itemMissingPrice (index : ℕ)
  | numericError
deriving DecidableEq, Repr

/-- The line-item index carried by a malformed-line-item error, if any. -/
def VError.itemIndex : VError → Option ℕ
  | .itemNotDict i => some i
  | .itemMissingName i => some i
  | .itemMissingPrice i => some i
  | _ => none

/-- Python: field not in data or data[field] is None. -/
def isAbsentOrNull (data : RecordMap) (f : String) : Bool :=
  match lookup data f with
  | none => true
  | some v => v = .prim .null

/-- The required-field loop shared by all three doc_config validators:
raise on the first required field that is absent or None. -/
def requiredCheck (docType : String) (req : List String) (data : RecordMap) :
    Except VError Unit :=
  match req.find? (fun f => isAbsentOrNull data f) with
  | some f => .error (.requiredMissing f docType)
  | none => .ok ()

/-- The per-item loop in validate_receipt_output: each line item must be
a dict, with a truthy name and a non-None price; the first violation
raises, carrying the item index.  The quantity key is never inspected. -/
def checkLineItems : ℕ → List Elem → Except VError Unit
  | _, [] => .ok ()
  | i, .prim _ :: _ => .error (.itemNotDict i)
  | i, .obj kvs :: rest =>
      match itemLookup kvs "name" with
      | none => .error (.itemMissingName i)
      | some nv =>
          if nv.falsy then .error (.itemMissingName i)
          else match itemLookup kvs "price" with
            | none => .error (.itemMissingPrice i)
            | some pv =>
                if pv = .null then .error (.itemMissingPrice i)
                else checkLineItems (i + 1) rest

/-- The LineItems structure check of validate_receipt_output: it runs
only when LineItems is present and is a list (Python isinstance). -/
def lineItemsCheck (data : RecordMap) : Except VError Unit :=
  match lookup data "LineItems" with
  | some (.list items) => checkLineItems 0 items
  | _ => .ok ()

/-- The validated-record builder shared by the doc_config validators:
required fields are copied as-is, optional fields are kept when present
and non-None and otherwise replaced by the configured default. -/
def buildValidated (req opt : List String) (defaultFor : String → Value)
    (data : RecordMap) : RecordMap :=
  req.map (fun f => (f, (lookup data f).getD (.prim .null))) ++
  opt.map (fun f =>
    (f, match lookup data f with
        | some v => if v = .prim .null then defaultFor f else v
        | none => defaultFor f))

/-- Summing float(item.get("price", 0)) over a list of line items;
none when some price fails to parse or some element is not a dict. -/
def sumPrices : List Elem → Option ℚ
  | [] => some 0
  | .prim _ :: _ => none
  | .obj kvs :: rest => do
      let p ← ((itemLookup kvs "price").getD (.num 0)).toFloat
      let s ← sumPrices rest
      pure (p + s)

/-- Iterating a LineItems value for the price sum.  A list is summed
item by item; iterating the empty string yields an empty sum (a Python
quirk); iterating any other scalar raises a TypeError. -/
def iterForSum : Value → Except VError ℚ
  | .list items =>
      match sumPrices items with
      | some s => .ok s
      | none => .error .numericError
  | .prim (.str s) => if s = "" then .ok 0 else .error .numericError
  | _ => .error .numericError

/-- The discrepancy-warning block at the end of validate_receipt_output
(doc_config.py lines 113..123): when both LineItems and TotalAmount are
present, sum the item prices, parse the total, and when the total is
positive and the relative deviation exceeds the 2 percent tolerance set
DiscrepancyWarning to True; otherwise leave the record untouched. -/
def discrepancyStep (d : RecordMap) : Except VError RecordMap :=
  if (lookup d "LineItems").isSome && (lookup d "TotalAmount").isSome then
    match iterForSum (lookupD d "LineItems" (.prim .null)) with
    | .error e => .error e
    | .ok s =>
        match Value.toFloat (lookupD d "TotalAmount" (.prim .null)) with
        | none => .error .numericError
        | some total =>
            if 0 < total ∧ (2 : ℚ) / 100 < |s - total| / total then
              .ok (setKey d "DiscrepancyWarning" (.prim (.bool true)))
            else .ok d
  else .ok d

def receiptRequired : List String := ["StoreName", "TotalAmount", "LineItems"]

def receiptOptional : List String :=
  ["StoreAddress", "StorePhone", "DateOfPurchase", "TransactionTime",
   "ReceiptID", "Subtotal", "Tax", "PaymentMethod", "CardLast4Digits",
   "DiscrepancyWarning"]

/-- Defaults for optional receipt fields: an empty list for LineItems,
False for DiscrepancyWarning, None otherwise. -/
def defaultForReceipt (f : String) : Value :=
  if f = "LineItems" then .list []
  else if f = "DiscrepancyWarning" then .prim (.bool false)
  else .prim .null

/-- doc_config.validate_receipt_output: required-field check, line-item
structure check, default filling, then the discrepancy-warning block. -/
def validate_receipt_output (data : RecordMap) : Except VError RecordMap := do
  requiredCheck "receipt" receiptRequired data
  lineItemsCheck data
  discrepancyStep (buildValidated receiptRequired receiptOptional defaultForReceipt data)

def resumeRequired : List String := ["FullName"]

def resumeOptional : List String :=
  ["Email", "PhoneNumber", "Skills", "WorkExperience", "Education"]

/-- Defaults for optional resume fields: empty lists for Skills,
WorkExperience and Education, None otherwise. -/
def defaultForResume (f : String) : Value :=
  if f = "Skills" ∨ f = "WorkExperience" ∨ f = "Education" then .list []
  else .prim .null

/-- doc_config.validate_resume_output. -/
def validate_resume_output (data : RecordMap) : Except VError RecordMap := do
  requiredCheck "resume" resumeRequired data
  pure (buildValidated resumeRequired resumeOptional defaultForResume data)

def licenseRequired : List String := ["Name"]

def licenseOptional : List String :=
  ["DateOfBirth", "LicenseNumber", "IssuingState", "ExpiryDate"]

/-- doc_config.validate_license_output. -/
def validate_license_output (data : RecordMap) : Except VError RecordMap := do
  requiredCheck "license" licenseRequired data
  pure (buildValidated licenseRequired licenseOptional (fun _ => .prim .null) data)

/-! ## doc_pipeline/utils/validators.py: boolean validators -/

/-- The expected Python types in utils/validators.EXPECTED_FIELDS. -/
inductive PyType where
  | pstr
  | plist
deriving DecidableEq, Repr

/-- Python isinstance against the two types the utils validator uses. -/
def Value.isInstanceOf : Value → PyType → Bool
  | .prim (.str _), .pstr => true
  | .list _, .plist => true
  | _, _ => false

/-- utils/validators.EXPECTED_FIELDS for receipts: field names with
their expected types (MerchantName/TotalAmount/DateOfPurchase/
PaymentMethod strings, Items a list). -/
def utilsReceiptFields : List (String × PyType) :=
  [("MerchantName", .pstr), ("TotalAmount", .pstr), ("DateOfPurchase", .pstr),
   ("Items", .plist), ("PaymentMethod", .pstr)]

/-- utils/validators.EXPECTED_FIELDS for licenses: all strings. -/
def utilsLicenseFields : List (String × PyType) :=
  [("Name", .pstr), ("DateOfBirth", .pstr), ("LicenseNumber", .pstr),
   ("IssuingState", .pstr), ("ExpiryDate", .pstr)]

/-- The per-item key check of utils.validate_receipt_output: each item
must be a dict whose key set includes name, quantity AND price (mere
key presence - emptiness and nullness are not checked there). -/
def utilsItemsOk (items : List Elem) : Bool :=
  items.all (fun it =>
    match it with
    | .obj kvs => itemHas kvs "name" && itemHas kvs "quantity" && itemHas kvs "price"
    | .prim _ => false)

/-- The shared key-presence and type checks of the utils validators:
every expected key present, and every non-None value of the expected
Python type. -/
def utilsFieldsOk (fields : List (String × PyType)) (data : RecordMap) : Bool :=
  (fields.all (fun kv => (lookup data kv.1).isSome)) &&
  (fields.all (fun kv =>
    match lookup data kv.1 with
    | some v => v = .prim .null || v.isInstanceOf kv.2
    | none => false))

/-- utils/validators.validate_receipt_output: True when all five
expected keys are present, non-None values have the expected types, and
when Items is present and not None it is a list of dicts each having
name, quantity and price keys.  Note this returns a Bool: a present but
None required field passes. -/
def utils_validate_receipt_output (data : RecordMap) : Bool :=
  utilsFieldsOk utilsReceiptFields data &&
  (match lookup data "Items" with
   | some (.prim .null) => true
   | some (.list items) => utilsItemsOk items
   | some _ => false
   | none => false)

/-- utils/validators.validate_license_output. -/
def utils_validate_license_output (data : RecordMap) : Bool :=
  utilsFieldsOk utilsLicenseFields data

/-! ## doc_pipeline/extractors/resume.py: phone plausibility and merge -/

/-- Scan for a digit immediately followed by a dash and a digit, which
is exactly when the Python regex search for digits-dash-digits
succeeds. -/
def ddScan : List Char → Bool
  | a :: b :: c :: rest => (a.isDigit && b = '-' && c.isDigit) || ddScan (b :: c :: rest)
  | _ => false

/-- re.search of the date-range pattern (one or more digits, a dash,
one or more digits) on a string. -/
def hasDigitDashDigit (s : String) : Bool :=
  ddScan s.toList

/-- Number of digit characters in a string (re.findall of a single
digit, then len). -/
def digitCount (s : String) : ℕ :=
  (s.toList.filter Char.isDigit).length

/-- resume.is_valid_phone_number: empty is invalid, anything containing
a digit-dash-digit date-range pattern is invalid, and otherwise the
string must contain at least 10 digits. -/
def is_valid_phone_number (phone : String) : Bool :=
  if phone = "" then false
  else if hasDigitDashDigit phone then false
  else decide (10 ≤ digitCount phone)

def RESUME_FIELDS : List String :=
  ["FullName", "Email", "PhoneNumber", "Skills", "WorkExperience", "Education"]

/-- The phone plausibility check applied to a field value.  The fast
regex parser only ever stores a string or None in PhoneNumber; a
non-string value is treated as implausible. -/
def phoneValueValid : Value → Bool
  | .prim (.str s) => is_valid_phone_number s
  | _ => false

/-- The invalid-field test of extractors/resume.parse_resume: a field is
missing or invalid when its value is falsy (None, empty string, empty
list) or, for PhoneNumber only, fails the plausibility check. -/
def resumeFieldInvalid (f : String) (v : Option Value) : Bool :=
  match v with
  | none => true
  | some v => v.falsy || (f = "PhoneNumber" && !phoneValueValid v)

/-! ## doc_pipeline/parsers/resume_parser.py: the deterministic pass -/

/-- The regular-expression searches of fast_regex_resume_parse, passed
in as an external capability: the email match, the phone match, and the
group-1 text of the Skills, Education and Experience section matches. -/
structure ResumeOracles where
  email : String → Option String
  phone : String → Option String
  skillsSect : String → Option String
  eduSect : String → Option String
  expSect : String → Option String

/-- Splitting a section body on a set of separator characters, then
stripping each piece and dropping empty pieces (the re.split plus strip
plus truthiness filter of the parser). -/
def splitItems (seps : List Char) (s : String) : List String :=
  ((s.toList.splitOnP (fun c => seps.contains c)).map
    (fun cs => pyStrip (String.mk cs))).filter (fun t => t ≠ "")

/-- True when a line contains an at-sign or a digit (the regex search
used to skip non-name lines). -/
def lineHasAtOrDigit (l : String) : Bool :=
  l.toList.any (fun c => c = '@' || c.isDigit)

/-- The naive name heuristic: the first line whose stripped form is
nonempty and which contains neither an at-sign nor a digit. -/
def firstNameLine (text : String) : Option String :=
  ((splitLinesPy text).find? (fun l => pyStrip l ≠ "" && !lineHasAtOrDigit l)).map
    pyStrip

/-- An optional matched string as a record value (None when absent). -/
def optStr : Option String → Value
  | some s => .prim (.str s)
  | none => .prim .null

/-- parsers/resume_parser.fast_regex_resume_parse: builds the
six-field record, with Education and WorkExperience entries shaped as
in the source (Institution/Degree/GraduationYear and
Company/Role/Dates). -/
def fast_regex_resume_parse (o : ResumeOracles) (text : String) : RecordMap :=
  let skills : List String :=
    match o.skillsSect text with
    | some s => splitItems [',', ';', '\n'] s
    | none => []
  let edu : List Elem :=
    match o.eduSect text with
    | some s =>
        (splitItems ['\n', ';'] s).map (fun item =>
          .obj [("Institution", .str item), ("Degree", .null), ("GraduationYear", .null)])
    | none => []
  let exp : List Elem :=
    match o.expSect text with
    | some s =>
        (splitItems ['\n', ';'] s).map (fun item =>
          .obj [("Company", .str item), ("Role", .null), ("Dates", .null)])
    | none => []
  [("FullName", optStr (firstNameLine text)),
   ("Email", optStr (o.email text)),
   ("PhoneNumber", optStr (o.phone text)),
   ("Skills", .list (skills.map (fun s => .prim (.str s)))),
   ("WorkExperience", .list exp),
   ("Education", .list edu)]

/-- One iteration of the merge loop of parse_resume: when the field is
still missing or invalid, overwrite it with the model value for that
field (None when the model result lacks the key). -/
def mergeStep (gem : RecordMap) (result : RecordMap) (f : String) : RecordMap :=
  if resumeFieldInvalid f (lookup result f) then
    setKey result f ((lookup gem f).getD (.prim .null))
  else result

/-- extractors/resume.parse_resume: run the deterministic pass, list the
missing or invalid fields, and when there are any, call the model once
and merge field by field, keeping valid deterministic values. -/
def parse_resume (o : ResumeOracles) (gemini : String → RecordMap) (text : String) :
    RecordMap :=
  let result := fast_regex_resume_parse o text
  let missing := RESUME_FIELDS.filter (fun f => resumeFieldInvalid f (lookup result f))
  if missing.isEmpty then result
  else RESUME_FIELDS.foldl (mergeStep (gemini text)) result

/-! ## doc_pipeline/llm/gemini_client.py: model calls and the retry loop -/

/-- llm/gemini_client.call_gemini_resume_extraction: one model call;
the api argument stands for the whole external interaction (credential
lookup, API call, fence stripping and JSON parsing).  Any failure in it
is caught and an empty mapping is returned; no exception escapes. -/
def call_gemini_resume_extraction (api : Except String RecordMap) : RecordMap :=
  match api with
  | .ok d => d
  | .error _ => []

/-- gemini_client.EXPECTED_FIELDS key sets per document type. -/
def expectedKeysFor : String → List String
  | "license" => ["Name", "DateOfBirth", "LicenseNumber", "IssuingState", "ExpiryDate"]
  | "receipt" => ["MerchantName", "TotalAmount", "DateOfPurchase", "Items", "PaymentMethod"]
  | _ => []

/-- One attempt of the extraction loop in extract_fields_from_text: the
raw API outcome, then the response-shape validation (the response must
contain every expected key). -/
def attemptOutcome (expected : List String) (resp : Except String RecordMap) :
    Except String RecordMap :=
  match resp with
  | .error e => .error e
  | .ok d =>
      match expected.filter (fun k => (lookup d k).isNone) with
      | [] => .ok d
      | _ => .error "Missing required keys"

def max_retries : ℕ := 2

/-- True when one list of characters occurs as a prefix of another. -/
def startsWithL : List Char → List Char → Bool
  | [], _ => true
  | _ :: _, [] => false
  | p :: ps, c :: cs => p = c && startsWithL ps cs

/-- Substring containment on character lists. -/
def containsSub : List Char → List Char → Bool
  | hay, pat =>
      startsWithL pat hay ||
      (match hay with
       | [] => false
       | _ :: rest => containsSub rest pat)

/-- Python substring test pat in s. -/
def strContains (s pat : String) : Bool :=
  containsSub s.toList pat.toList

/-- The retry loop of extract_fields_from_text.  The api argument gives
the outcome of the k-th call to the external model; attempt counts the
current index, and fuel is the number of attempts still allowed
(initially max_retries + 1).  A successful attempt returns its record
together with the number of one-second sleeps performed so far, which
equals the attempt index; once the budget is exhausted a terminal error
is raised. -/
def retryLoop (expected : List String) (api : ℕ → Except String RecordMap) :
    ℕ → ℕ → Except String (RecordMap × ℕ)
  | _, 0 => .error "no attempts allowed"
  | attempt, fuel + 1 =>
      match attemptOutcome expected (api attempt) with
      | .ok d => .ok (d, attempt)
      | .error e =>
          if fuel = 0 then
            .error ("Field extraction failed after 3 attempts: " ++ e)
          else retryLoop expected api (attempt + 1) fuel

/-- gemini_client.extract_fields_from_text: the simulated RETRY_TEST
failure, the supported-type check, then up to max_retries + 1 attempts
with a fixed one-second sleep between consecutive attempts. -/
def extract_fields_from_text (api : ℕ → Except String RecordMap)
    (text : String) (doc_type : String) : Except String (RecordMap × ℕ) :=
  if strContains text "RETRY_TEST" then .error "Simulated invalid Gemini response"
  else if doc_type ≠ "license" ∧ doc_type ≠ "receipt" then
    .error "Unsupported document type"
  else retryLoop (expectedKeysFor doc_type) api 0 (max_retries + 1)

/-! ## doc_pipeline/parsers/receipt_parser.py: the deterministic receipt pass -/

/-- The typed error of the deterministic receipt parser
(ReceiptExtractionError), tagged with the field extractor that
failed. -/
inductive ReceiptErr where
  | merchant
  | date
  | total
  | items
  | payment
deriving DecidableEq, Repr

/-- The regular-expression searches of the five field extractors,
passed in as an external capability.  merchant and total take a pattern
index and a stripped line and yield the matched group; dateGroups takes
a pattern index and the whole text and yields the first three groups;
item takes a pattern index and a stripped line and yields the group
list; payment takes a pattern index and the whole text and yields the
matched group. -/
structure ReceiptOracles where
  merchant : ℕ → String → Option String
  dateGroups : ℕ → String → Option (String × String × String)
  total : ℕ → String → Option String
  item : ℕ → String → Option (List String)
  payment : ℕ → String → Option String

/-- receipt_parser.extract_merchant_name: for each of the six patterns
in order, scan the lines in order, skipping lines whose stripped form
is empty; a match whose stripped group has length at least 2 is
returned; otherwise the typed error is raised. -/
def extract_merchant_name (o : ReceiptOracles) (text : String) :
    Except ReceiptErr String :=
  let lines := splitLinesPy text
  match (List.range 6).findSome? (fun i =>
      lines.findSome? (fun line =>
        let l := pyStrip line
        if l = "" then none
        else match o.merchant i l with
          | some g =>
              let m := pyStrip g
              if 2 ≤ m.length then some m else none
          | none => none)) with
  | some m => .ok m
  | none => .error .merchant

/-- Python int(s) for the nonnegative digit strings the date extractor
feeds it; anything non-numeric raises (none), as int("JAN") does. -/
def pyIntOfDigits (s : String) : Option ℕ :=
  if s ≠ "" ∧ s.toList.all Char.isDigit then some (digitsToNat s.toList) else none

/-- Python s.zfill(2). -/
def zfill2 (s : String) : String :=
  if 2 ≤ s.length then s else String.mk (List.replicate (2 - s.length) '0') ++ s

def isLeapYear (y : ℕ) : Bool :=
  (y % 4 = 0 && y % 100 ≠ 0) || y % 400 = 0

def daysInMonth (y m : ℕ) : ℕ :=
  if m = 2 then (if isLeapYear y then 29 else 28)
  else if m = 4 ∨ m = 6 ∨ m = 9 ∨ m = 11 then 30
  else 31

/-- The datetime(year, month, day) constructor validation. -/
def validDateTriple (y m d : ℕ) : Bool :=
  1 ≤ y && y ≤ 9999 && 1 ≤ m && m ≤ 12 && 1 ≤ d && d ≤ daysInMonth y m

/-- The body of extract_date for one pattern match: fix a two-digit year
(20xx below 50, 19xx otherwise), validate via the datetime constructor,
and format as zero-padded month/day/year.  Any int() or datetime()
failure skips to the next pattern. -/
def tryDateGroups (g : String × String × String) : Option String := do
  let (month, day, year0) := g
  let year ←
    if year0.length = 2 then
      (pyIntOfDigits year0).map (fun n => (if n < 50 then "20" else "19") ++ year0)
    else some year0
  let y ← pyIntOfDigits year
  let m ← pyIntOfDigits month
  let d ← pyIntOfDigits day
  if validDateTriple y m d then
    some (zfill2 month ++ "/" ++ zfill2 day ++ "/" ++ year)
  else none

/-- receipt_parser.extract_date: first of the six date patterns (over
the whole text) that yields a validated, formatted date. -/
def extract_date (o : ReceiptOracles) (text : String) : Except ReceiptErr String :=
  match (List.range 6).findSome? (fun i => (o.dateGroups i text).bind tryDateGroups) with
  | some d => .ok d
  | none => .error .date

/-- The plausible-total range check: 0.01 to 9999.99 inclusive. -/
def totalInRange (q : ℚ) : Bool :=
  1 / 100 ≤ q && q ≤ 9999 + 99 / 100

/-- receipt_parser.extract_total: for each of the four total patterns in
order, scan the nonempty stripped lines in order; a matched amount that
parses as a float in the plausible range is returned as its original
string. -/
def extract_total (o : ReceiptOracles) (text : String) : Except ReceiptErr String :=
  let lines := splitLinesPy text
  match (List.range 4).findSome? (fun i =>
      lines.findSome? (fun line =>
        let l := pyStrip line
        if l = "" then none
        else match o.total i l with
          | some tot =>
              match pyFloat tot with
              | some amt => if totalInRange amt then some tot else none
              | none => none
          | none => none)) with
  | some t => .ok t
  | none => .error .total

/-- Header and footer keywords that make the item extractor skip a
line. -/
def itemSkipWords : List String :=
  ["TOTAL", "SUBTOTAL", "TAX", "CHANGE", "CASH", "CARD", "RECEIPT", "THANK"]

def toUpperStr (s : String) : String :=
  String.mk (s.toList.map Char.toUpper)

def lineSkipped (l : String) : Bool :=
  itemSkipWords.any (fun w => strContains (toUpperStr l) w)

/-- re.sub of runs of whitespace by a single space followed by strip:
split on whitespace, drop empties, rejoin with single spaces. -/
def collapseWs (s : String) : String :=
  joinWith " " (((s.toList.splitOnP isWsChar).map String.mk).filter
    (fun t => t ≠ ""))

/-- Python s.isdigit() for ASCII strings. -/
def pyIsDigitStr (s : String) : Bool :=
  s ≠ "" && s.toList.all Char.isDigit

/-- Interpreting the groups of one item-pattern match exactly as the
source does: two groups are name and price; three groups are
quantity/name/price when the first group is all digits, and
name/quantity/price otherwise.  The name group is stripped.  Returns
the raw name, the price string and the current value of the quantity
local variable (the source reads the quantity local with an
in-locals() test, so a quantity assigned on an earlier line leaks into
later two-group items; the third component tracks that local). -/
def parseItemGroups (gs : List String) (qty0 : Option String) :
    Option (String × String × Option String) :=
  match gs with
  | [g1, g2] => some (pyStrip g1, g2, qty0)
  | [g1, g2, g3] =>
      if pyIsDigitStr g1 then some (pyStrip g2, g3, some g1)
      else some (pyStrip g1, g3, some g2)
  | _ => none

/-- Build one extracted item dict: name, price, and the quantity local
when it has ever been assigned. -/
def buildReceiptItem (nm p : String) (qty : Option String) : Item :=
  [("name", .str nm), ("price", .str p)] ++
  (match qty with
   | some q => [("quantity", .str q)]
   | none => [])

/-- The inner pattern loop of extract_items for one line: try the item
patterns in order; a match with a parseable price and a cleaned name of
length at least 2 is appended and the loop breaks; otherwise the next
pattern is tried.  The quantity local threads through (it updates even
when the price check or the name-length check then fails). -/
def scanItemPatterns (o : ReceiptOracles) (line : String) :
    Option String → List ℕ → Option Item × Option String
  | qty0, [] => (none, qty0)
  | qty0, i :: rest =>
      match o.item i line with
      | none => scanItemPatterns o line qty0 rest
      | some gs =>
          match parseItemGroups gs qty0 with
          | none => scanItemPatterns o line qty0 rest
          | some (nameRaw, priceS, qty1) =>
              match pyFloat priceS with
              | none => scanItemPatterns o line qty1 rest
              | some _ =>
                  let nm := collapseWs nameRaw
                  if 2 ≤ nm.length then (some (buildReceiptItem nm priceS qty1), qty1)
                  else scanItemPatterns o line qty1 rest

/-- The accumulated state of the item-extraction loop: the items found
so far and the quantity local variable. -/
structure ItemsState where
  found : List Item
  lastQty : Option String

/-- One line of extract_items: skip short lines and lines containing a
header or footer keyword, otherwise run the pattern loop. -/
def itemLineStep (o : ReceiptOracles) (st : ItemsState) (line0 : String) : ItemsState :=
  let line := pyStrip line0
  if line = "" ∨ line.length < 5 then st
  else if lineSkipped line then st
  else
    match scanItemPatterns o line st.lastQty [0, 1, 2, 3] with
    | (some it, q) => { found := st.found ++ [it], lastQty := q }
    | (none, q) => { found := st.found, lastQty := q }

/-- receipt_parser.extract_items: scan every line; raise the typed error
when no item at all was extracted. -/
def extract_items (o : ReceiptOracles) (text : String) :
    Except ReceiptErr (List Item) :=
  let final := (splitLinesPy text).foldl (itemLineStep o) { found := [], lastQty := none }
  if final.found.isEmpty then .error .items else .ok final.found

/-- The payment-method normalization table. -/
def paymentMap : List (String × String) :=
  [("VISA", "Visa"), ("MASTERCARD", "Mastercard"), ("AMEX", "American Express"),
   ("AMERICAN EXPRESS", "American Express"), ("DISCOVER", "Discover"),
   ("DEBIT", "Debit Card"), ("CREDIT", "Credit Card"), ("CASH", "Cash"),
   ("CHECK", "Check"), ("APPLE PAY", "Apple Pay"), ("GOOGLE PAY", "Google Pay"),
   ("SAMSUNG PAY", "Samsung Pay"), ("PAYPAL", "PayPal"), ("VENMO", "Venmo"),
   ("ZELLE", "Zelle")]

def assocFind (m : List (String × String)) (k : String) : Option String :=
  (m.find? (fun p => p.1 = k)).map Prod.snd

/-- Python s.title(): the first letter of each alphabetic run is
uppercased, the rest lowercased. -/
def pyTitleAux : Bool → List Char → List Char
  | _, [] => []
  | prevAlpha, c :: cs =>
      (if c.isAlpha then (if prevAlpha then c.toLower else c.toUpper) else c) ::
      pyTitleAux c.isAlpha cs

def pyTitle (s : String) : String :=
  String.mk (pyTitleAux false s.toList)

/-- receipt_parser.extract_payment_method: first of the six payment
patterns that matches anywhere in the text; the matched group is
stripped, uppercased and normalized through the table (title-cased when
not in the table). -/
def extract_payment_method (o : ReceiptOracles) (text : String) :
    Except ReceiptErr String :=
  match (List.range 6).findSome? (fun i => o.payment i text) with
  | some g =>
      let pm := toUpperStr (pyStrip g)
      .ok ((assocFind paymentMap pm).getD (pyTitle pm))
  | none => .error .payment

/-- receipt_parser.parse_receipt: all five extractors must succeed, in
the order of the dict literal of the source; the first
ReceiptExtractionError aborts everything (no partial record). -/
def parse_receipt (o : ReceiptOracles) (text : String) :
    Except ReceiptErr RecordMap := do
  let m ← extract_merchant_name o text
  let d ← extract_date o text
  let t ← extract_total o text
  let its ← extract_items o text
  let pm ← extract_payment_method o text
  pure [("MerchantName", .prim (.str m)),
        ("DateOfPurchase", .prim (.str d)),
        ("TotalAmount", .prim (.str t)),
        ("Items", .list (its.map Elem.obj)),
        ("PaymentMethod", .prim (.str pm))]

/-! ## doc_pipeline/pipeline/receipt_pipeline.py: the batch driver step -/

def isOkB {ε α : Type} : Except ε α → Bool
  | .ok _ => true
  | .error _ => false

/-- extractors/receipt.parse_receipt (the model fallback): one guarded
call through extract_fields_from_text for receipts, then the utils
boolean validation; an invalid response is an error. -/
def gemini_parse_receipt (api : ℕ → Except String RecordMap) (text : String) :
    Except String RecordMap :=
  match extract_fields_from_text api text "receipt" with
  | .error e => .error e
  | .ok (d, _) =>
      if utils_validate_receipt_output d then .ok d
      else .error "Receipt output validation failed"

/-- The per-file outcome of the receipt batch driver: the written record
when the file succeeded, the gemini_fallback counter contribution as
the source counts it (it increments only after the fallback call
returns), and whether the model extractor was invoked at all. -/
structure FileOutcome where
  result : Option RecordMap
  usedGeminiCounter : Bool
  modelInvoked : Bool
deriving DecidableEq, Repr

/-- The fallback branch of the receipt driver loop: call the model path;
on success re-validate and write, on failure record the file as failed.
The model was invoked in every case. -/
def geminiBranchOutcome (api : ℕ → Except String RecordMap) (text : String) :
    FileOutcome :=
  { result :=
      match gemini_parse_receipt api text with
      | .ok r => if utils_validate_receipt_output r then some r else none
      | .error _ => none
    usedGeminiCounter := isOkB (gemini_parse_receipt api text)
    modelInvoked := true }

/-- The body of the per-file loop of receipt_pipeline.process_documents:
try the deterministic parser; when it succeeds and the utils validation
passes, the regex record is re-validated and written; otherwise fall
back to the model path. -/
def processReceiptFile (o : ReceiptOracles) (api : ℕ → Except String RecordMap)
    (ocr_text : String) : FileOutcome :=
  match parse_receipt o ocr_text with
  | .ok regexResult =>
      if utils_validate_receipt_output regexResult then
        { result := if utils_validate_receipt_output regexResult then some regexResult else none
          usedGeminiCounter := false
          modelInvoked := false }
      else geminiBranchOutcome api ocr_text
  | .error _ => geminiBranchOutcome api ocr_text

/-! ## doc_pipeline/pipeline/generic_pipeline.py and doc_config postprocessors -/

/-- Replace a non-list field by a list: None becomes the empty list, any
other scalar is wrapped in a singleton (the ensure-list postprocessing
steps). -/
def ensureListField (d : RecordMap) (f : String) : RecordMap :=
  match lookup d f with
  | some (.list _) => d
  | some (.prim .null) => setKey d f (.list [])
  | some (.prim p) => setKey d f (.list [.prim p])
  | none => d

/-- doc_config.postprocess_resume_output. -/
def postprocess_resume_output (d : RecordMap) : RecordMap :=
  ensureListField (ensureListField (ensureListField d "Skills") "WorkExperience")
    "Education"

/-- Python bool(x) of a field value. -/
def pyBool : Value → Bool
  | .prim p => !p.falsy
  | .list xs => !xs.isEmpty

/-- doc_config.postprocess_receipt_output: LineItems is forced to a
list, DiscrepancyWarning is forced to a Bool. -/
def postprocess_receipt_output (d : RecordMap) : RecordMap :=
  let d1 := ensureListField d "LineItems"
  match lookup d1 "DiscrepancyWarning" with
  | some v => setKey d1 "DiscrepancyWarning" (.prim (.bool (pyBool v)))
  | none => d1

/-- The document-type dispatch of the doc_config validator table. -/
def docValidator : String → RecordMap → Except VError RecordMap
  | "resume" => validate_resume_output
  | "license" => validate_license_output
  | _ => validate_receipt_output

/-- The document-type dispatch of the doc_config postprocessor table
(postprocess_license_output is the identity). -/
def docPostprocess : String → RecordMap → RecordMap
  | "resume" => postprocess_resume_output
  | "receipt" => postprocess_receipt_output
  | _ => fun d => d

def supportedDocTypes : List String := ["resume", "license", "receipt"]

/-- The failure modes of generic_pipeline.process_document. -/
inductive PipeErr where
  | noText
  | unsupportedType
  | promptNotFound
  | llmFailed (msg : String)
  | validationFailed
deriving DecidableEq, Repr

/-- The external collaborators of the generic pipeline: whether the
prompt template file exists, and the OpenAI model call of
llm_client.extract_fields_from_text applied to the OCR text (the
prompt interpolation is part of the collaborator). -/
structure GenericEnv where
  promptExists : Bool
  llm : String → Except String RecordMap

/-- generic_pipeline.process_document, with its Boolean instrumented
companion: the returned flag records whether the model call (step 4)
was reached.  Note the no-text guard is Python truthiness on the OCR
string: only the empty string fails it; whitespace-only text passes. -/
def process_document (env : GenericEnv) (ocr_text : String)
    (document_type : String) : Except PipeErr RecordMap × Bool :=
  if ocr_text = "" then (.error .noText, false)
  else if supportedDocTypes.contains document_type = false then
    (.error .unsupportedType, false)
  else if env.promptExists = false then (.error .promptNotFound, false)
  else
    match env.llm ocr_text with
    | .error e => (.error (.llmFailed e), true)
    | .ok data =>
        match docValidator document_type data with
        | .error _ => (.error .validationFailed, true)
        | .ok v => (.ok (docPostprocess document_type v), true)

/-! ## Helper lemmas -/

theorem lookup_setKey_self (m : RecordMap) (k : String) (v : Value) :
    lookup (setKey m k v) k = some v := by
  induction m with
  | nil => simp [setKey, lookup]
  | cons hd tl ih =>
      by_cases h : hd.1 = k
      · simp [setKey, h, lookup]
      · simp [setKey, h, lookup, ih]

theorem lookup_setKey_ne (m : RecordMap) (k : String) (v : Value) (k2 : String)
    (h : k2 ≠ k) : lookup (setKey m k v) k2 = lookup m k2 := by
  induction m with
  | nil =>
      simp only [setKey, lookup, if_neg (show ¬ k = k2 from fun hh => h hh.symm)]
  | cons hd tl ih =>
      by_cases hk : hd.1 = k
      · subst hk
        simp only [setKey, if_pos rfl, lookup]
        have : ¬ hd.1 = k2 := fun hh => h (hh.symm)
        simp [this]
      · simp only [setKey, if_neg hk, lookup]
        by_cases h2 : hd.1 = k2
        · simp [h2]
        · simp [h2, ih]

theorem keys_setKey (m : RecordMap) (k : String) (v : Value)
    (h : (lookup m k).isSome) :
    (setKey m k v).map Prod.fst = m.map Prod.fst := by
  induction m with
  | nil => simp [lookup] at h
  | cons hd tl ih =>
      by_cases hk : hd.1 = k
      · simp [setKey, hk]
      · simp only [lookup, if_neg hk] at h
        simp [setKey, hk, ih h]

theorem lookup_isSome_setKey (m : RecordMap) (k : String) (v : Value) (k2 : String)
    (h : (lookup m k2).isSome) : (lookup (setKey m k v) k2).isSome := by
  by_cases hk : k2 = k
  · subst hk
    simp [lookup_setKey_self]
  · rw [lookup_setKey_ne m k v k2 hk]
    exact h

/-- When a required field is absent or None, the required-field loop
raises, naming the first such field. -/
theorem requiredCheck_error_of_exists (dt : String) (req : List String)
    (data : RecordMap) (hex : ∃ f ∈ req, isAbsentOrNull data f = true) :
    ∃ g ∈ req, isAbsentOrNull data g = true ∧
      requiredCheck dt req data = .error (.requiredMissing g dt) := by
  have hs : (req.find? (fun f => isAbsentOrNull data f)).isSome := by
    rw [List.find?_isSome]
    obtain ⟨f, hf, hp⟩ := hex
    exact ⟨f, hf, hp⟩
  obtain ⟨g, hg⟩ := Option.isSome_iff_exists.mp hs
  refine ⟨g, List.mem_of_find?_eq_some hg, List.find?_some hg, ?_⟩
  simp [requiredCheck, hg]

theorem requiredCheck_ok_mem (dt : String) (req : List String) (data : RecordMap)
    (h : requiredCheck dt req data = .ok ()) (f : String) (hf : f ∈ req) :
    isAbsentOrNull data f = false := by
  unfold requiredCheck at h
  cases hfind : req.find? (fun f => isAbsentOrNull data f) with
  | some g => rw [hfind] at h; exact absurd h (by simp)
  | none =>
      have := List.find?_eq_none.mp hfind f hf
      simpa using this

theorem isAbsentOrNull_false_iff (data : RecordMap) (f : String) :
    isAbsentOrNull data f = false ↔
      ∃ v, lookup data f = some v ∧ v ≠ .prim .null := by
  unfold isAbsentOrNull
  cases h : lookup data f with
  | none => simp
  | some v =>
      constructor
      · intro hv
        refine ⟨v, rfl, ?_⟩
        simpa using hv
      · rintro ⟨w, hw, hne⟩
        injection hw with hw
        subst hw
        simpa using hne

/-- The discrepancy block never touches any key other than
DiscrepancyWarning. -/
theorem discrepancyStep_frame (d r : RecordMap) (k : String)
    (h : discrepancyStep d = .ok r) (hk : k ≠ "DiscrepancyWarning") :
    lookup r k = lookup d k := by
  unfold discrepancyStep at h
  split at h
  · split at h
    · exact absurd h (by simp)
    · split at h
      · exact absurd h (by simp)
      · split at h
        · injection h with h
          subst h
          exact lookup_setKey_ne d _ _ k hk
        · injection h with h
          subst h
          rfl
  · injection h with h
    subst h
    rfl

/-- With TotalAmount absent the discrepancy block is skipped
entirely. -/
theorem discrepancyStep_skip_absent (d : RecordMap)
    (h : lookup d "TotalAmount" = none) : discrepancyStep d = .ok d := by
  unfold discrepancyStep
  rw [if_neg]
  simp [h]

/-- With a total parsing to zero the discrepancy block leaves the record
untouched whenever it completes. -/
theorem discrepancyStep_skip_zero (d r : RecordMap) (tv : Value)
    (h : discrepancyStep d = .ok r) (htv : lookup d "TotalAmount" = some tv)
    (hz : tv.toFloat = some 0) : r = d := by
  have hlt : lookupD d "TotalAmount" (.prim .null) = tv := by
    simp [lookupD, htv]
  unfold discrepancyStep at h
  split at h
  · split at h
    · exact absurd h (by simp)
    · rw [hlt, hz] at h
      simp only [lt_self_iff_false, false_and, if_false] at h
      injection h with h
      exact h.symm
  · injection h with h
    exact h.symm

/-- Unfolding the bind chain of the receipt validator. -/
theorem validate_receipt_ok_parts (data out : RecordMap)
    (h : validate_receipt_output data = .ok out) :
    requiredCheck "receipt" receiptRequired data = .ok () ∧
    lineItemsCheck data = .ok () ∧
    discrepancyStep
      (buildValidated receiptRequired receiptOptional defaultForReceipt data) = .ok out := by
  unfold validate_receipt_output at h
  simp only [Bind.bind, Except.bind] at h
  cases hr : requiredCheck "receipt" receiptRequired data with
  | error e =>
      rw [hr] at h
      exact absurd h (by simp)
  | ok u =>
      cases u
      rw [hr] at h
      simp only [] at h
      cases hl : lineItemsCheck data with
      | error e =>
          rw [hl] at h
          exact absurd h (by simp)
      | ok u2 =>
          cases u2
          rw [hl] at h
          simp only [] at h
          exact ⟨rfl, rfl, h⟩

theorem lookup_bv_receipt_total (data : RecordMap) :
    lookup (buildValidated receiptRequired receiptOptional defaultForReceipt data)
      "TotalAmount" = some ((lookup data "TotalAmount").getD (.prim .null)) := rfl

theorem lookup_bv_receipt_items (data : RecordMap) :
    lookup (buildValidated receiptRequired receiptOptional defaultForReceipt data)
      "LineItems" = some ((lookup data "LineItems").getD (.prim .null)) := rfl

theorem lookup_bv_receipt_store (data : RecordMap) :
    lookup (buildValidated receiptRequired receiptOptional defaultForReceipt data)
      "StoreName" = some ((lookup data "StoreName").getD (.prim .null)) := rfl

/-- The validated record holds the default False for the discrepancy
flag whenever the incoming record did not carry the flag (absent or
None). -/
theorem lookup_bv_receipt_flag (data : RecordMap)
    (hab : isAbsentOrNull data "DiscrepancyWarning" = true) :
    lookup (buildValidated receiptRequired receiptOptional defaultForReceipt data)
      "DiscrepancyWarning" = some (.prim (.bool false)) := by
  have hshape : lookup (buildValidated receiptRequired receiptOptional defaultForReceipt data)
      "DiscrepancyWarning" =
      some (match lookup data "DiscrepancyWarning" with
            | some v => if v = .prim .null then defaultForReceipt "DiscrepancyWarning" else v
            | none => defaultForReceipt "DiscrepancyWarning") := rfl
  rw [hshape]
  unfold isAbsentOrNull at hab
  cases hl : lookup data "DiscrepancyWarning" with
  | none => rfl
  | some v =>
      rw [hl] at hab
      have hv : v = .prim .null := by simpa using hab
      subst hv
      rfl

/-- One merge iteration for a different field does not change a field
lookup. -/
theorem lookup_mergeStep_ne (gem r : RecordMap) (g f : String) (h : g ≠ f) :
    lookup (mergeStep gem r g) f = lookup r f := by
  unfold mergeStep
  split
  · exact lookup_setKey_ne r g _ f (fun hh => h hh.symm)
  · rfl

/-- Folding the merge over fields not containing f does not change f. -/
theorem lookup_foldl_merge_notMem (gem : RecordMap) (L : List String)
    (r : RecordMap) (f : String) (h : f ∉ L) :
    lookup (L.foldl (mergeStep gem) r) f = lookup r f := by
  induction L generalizing r with
  | nil => rfl
  | cons g rest ih =>
      have hgf : g ≠ f := fun hh => h (hh ▸ List.mem_cons_self g rest)
      have hrest : f ∉ rest := fun hh => h (List.mem_cons_of_mem g hh)
      rw [List.foldl_cons, ih (mergeStep gem r g) hrest, lookup_mergeStep_ne gem r g f hgf]

/-- The value of field f after the merge fold, when f occurs exactly
once in the field list: the model value when the deterministic value
was missing or invalid, the deterministic value otherwise. -/
theorem lookup_foldl_merge (gem : RecordMap) (L1 L2 : List String)
    (r : RecordMap) (f : String) (h1 : f ∉ L1) (h2 : f ∉ L2) :
    lookup ((L1 ++ f :: L2).foldl (mergeStep gem) r) f =
      (if resumeFieldInvalid f (lookup r f) then some ((lookup gem f).getD (.prim .null))
       else lookup r f) := by
  induction L1 generalizing r with
  | nil =>
      simp only [List.nil_append, List.foldl_cons]
      rw [lookup_foldl_merge_notMem gem L2 (mergeStep gem r f) f h2]
      unfold mergeStep
      split
      · rw [lookup_setKey_self]
      · rfl
  | cons g rest ih =>
      have hgf : g ≠ f := fun hh => h1 (hh ▸ List.mem_cons_self g rest)
      have hrest : f ∉ rest := fun hh => h1 (List.mem_cons_of_mem g hh)
      rw [List.cons_append, List.foldl_cons, ih (mergeStep gem r g) hrest,
        lookup_mergeStep_ne gem r g f hgf]

/-- The merge fold preserves the key list when every field in the list
is already a key. -/
theorem keys_foldl_merge (gem : RecordMap) (L : List String) (r : RecordMap)
    (h : ∀ f ∈ L, (lookup r f).isSome) :
    (L.foldl (mergeStep gem) r).map Prod.fst = r.map Prod.fst := by
  induction L generalizing r with
  | nil => rfl
  | cons g rest ih =>
      have hg : (lookup r g).isSome := h g (List.mem_cons_self g rest)
      have hkeys : (mergeStep gem r g).map Prod.fst = r.map Prod.fst := by
        unfold mergeStep
        split
        · exact keys_setKey r g _ hg
        · rfl
      have hpres : ∀ f ∈ rest, (lookup (mergeStep gem r g) f).isSome := by
        intro f hf
        unfold mergeStep
        split
        · exact lookup_isSome_setKey r g _ f (h f (List.mem_cons_of_mem g hf))
        · exact h f (List.mem_cons_of_mem g hf)
      rw [List.foldl_cons, ih (mergeStep gem r g) hpres, hkeys]

/-- A line item is rejected by the config-module line-item check exactly
when it is not a dict, lacks a truthy name, or lacks a non-None
price. -/
def itemBad : Elem → Bool
  | .prim _ => true
  | .obj kvs =>
      (match itemLookup kvs "name" with
       | none => true
       | some n => n.falsy) ||
      (match itemLookup kvs "price" with
       | none => true
       | some p => p = .null)

theorem checkLineItems_ok_of_good (items : List Elem)
    (h : ∀ it ∈ items, itemBad it = false) :
    ∀ i, checkLineItems i items = .ok () := by
  induction items with
  | nil => intro i; rfl
  | cons it rest ih =>
      intro i
      have hhd : itemBad it = false := h it (List.mem_cons_self it rest)
      have hrest : ∀ j ∈ rest, itemBad j = false :=
        fun j hj => h j (List.mem_cons_of_mem it hj)
      cases it with
      | prim p => exact absurd hhd (by simp [itemBad])
      | obj kvs =>
          unfold itemBad at hhd
          simp only [Bool.or_eq_false_iff] at hhd
          obtain ⟨hname, hprice⟩ := hhd
          cases hn : itemLookup kvs "name" with
          | none => simp [hn] at hname
          | some n =>
              simp only [hn] at hname
              cases hp : itemLookup kvs "price" with
              | none => simp [hp] at hprice
              | some p =>
                  simp only [hp, decide_eq_false_iff_not] at hprice
                  unfold checkLineItems
                  simp only [hn]
                  rw [if_neg (by simp [hname])]
                  simp only [hp]
                  rw [if_neg (by simp [hprice])]
                  exact ih hrest (i + 1)

/-- When some line item is malformed, the check raises at the first
malformed item, carrying its index. -/
theorem checkLineItems_error_of_bad (items : List Elem)
    (hex : ∃ it ∈ items, itemBad it = true) :
    ∀ i, ∃ k, k < items.length ∧ itemBad (items.getD k (.prim .null)) = true ∧
      ∃ e, checkLineItems i items = .error e ∧ e.itemIndex = some (i + k) := by
  induction items with
  | nil => exact absurd hex (by simp)
  | cons it rest ih =>
      intro i
      by_cases hhd : itemBad it = true
      · refine ⟨0, by simp, by simpa using hhd, ?_⟩
        cases it with
        | prim p => exact ⟨.itemNotDict i, rfl, by simp [VError.itemIndex]⟩
        | obj kvs =>
            unfold itemBad at hhd
            simp only [Bool.or_eq_true] at hhd
            cases hn : itemLookup kvs "name" with
            | none =>
                exact ⟨.itemMissingName i, by unfold checkLineItems; simp only [hn],
                  by simp [VError.itemIndex]⟩
            | some n =>
                by_cases hnf : n.falsy = true
                · exact ⟨.itemMissingName i,
                    by unfold checkLineItems
                       simp only [hn]
                       rw [if_pos hnf],
                    by simp [VError.itemIndex]⟩
                · have hpr : (match itemLookup kvs "price" with
                      | none => true
                      | some p => decide (p = .null)) = true := by
                    rcases hhd with hl | hr
                    · simp only [hn] at hl; exact absurd hl hnf
                    · exact hr
                  cases hp : itemLookup kvs "price" with
                  | none =>
                      exact ⟨.itemMissingPrice i,
                        by unfold checkLineItems
                           simp only [hn]
                           rw [if_neg hnf]
                           simp only [hp],
                        by simp [VError.itemIndex]⟩
                  | some p =>
                      simp only [hp, decide_eq_true_eq] at hpr
                      exact ⟨.itemMissingPrice i,
                        by unfold checkLineItems
                           simp only [hn]
                           rw [if_neg hnf]
                           simp only [hp]
                           rw [if_pos (by simp [hpr])],
                        by simp [VError.itemIndex]⟩
      · have hhd2 : itemBad it = false := by simpa using hhd
        have hex2 : ∃ j ∈ rest, itemBad j = true := by
          rcases hex with ⟨j, hj, hbj⟩
          rcases List.mem_cons.mp hj with hj1 | hj2
          · subst hj1; exact absurd hbj hhd
          · exact ⟨j, hj2, hbj⟩
        obtain ⟨k, hk, hbk, e, he, hidx⟩ := ih hex2 (i + 1)
        refine ⟨k + 1, by simpa using Nat.succ_lt_succ hk, by simpa using hbk, e, ?_, ?_⟩
        · cases it with
          | prim p => simp [itemBad] at hhd2
          | obj kvs =>
              unfold itemBad at hhd2
              simp only [Bool.or_eq_false_iff] at hhd2
              obtain ⟨hname, hprice⟩ := hhd2
              cases hn : itemLookup kvs "name" with
              | none => simp [hn] at hname
              | some n =>
                  simp only [hn] at hname
                  cases hp : itemLookup kvs "price" with
                  | none => simp [hp] at hprice
                  | some p =>
                      simp only [hp, decide_eq_false_iff_not] at hprice
                      unfold checkLineItems
                      simp only [hn]
                      rw [if_neg (by simp [hname])]
                      simp only [hp]
                      rw [if_neg (by simp [hprice])]
                      exact he
        · rw [hidx]
          congr 1
          omega

/-! ## Claim C4: phone-number plausibility -/

/-- The digit-dash-digit date-range pattern stated declaratively: some
digit character immediately followed by a dash and a digit. -/
def DateRangeIn (cs : List Char) : Prop :=
  ∃ l r d1 d2, d1.isDigit = true ∧ d2.isDigit = true ∧ cs = l ++ d1 :: '-' :: d2 :: r

theorem dateRangeIn_length (cs : List Char) (h : DateRangeIn cs) :
    3 ≤ cs.length := by
  obtain ⟨l, r, d1, d2, _, _, heq⟩ := h
  subst heq
  simp only [List.length_append, List.length_cons]
  omega

theorem ddScan_iff_dateRangeIn (cs : List Char) :
    ddScan cs = true ↔ DateRangeIn cs := by
  induction cs with
  | nil =>
      constructor
      · intro h; exact absurd h (by decide)
      · intro h; have := dateRangeIn_length _ h; simp at this
  | cons a tail ih =>
      cases tail with
      | nil =>
          constructor
          · intro h
            have hh : ddScan [a] = false := rfl
            rw [hh] at h
            exact absurd h (by simp)
          · intro h; have := dateRangeIn_length _ h; simp at this
      | cons b tail2 =>
          cases tail2 with
          | nil =>
              constructor
              · intro h
                have hh : ddScan [a, b] = false := rfl
                rw [hh] at h
                exact absurd h (by simp)
              · intro h; have := dateRangeIn_length _ h; simp at this
          | cons c rest =>
              have heq : ddScan (a :: b :: c :: rest) =
                  ((a.isDigit && b = '-' && c.isDigit) || ddScan (b :: c :: rest)) := rfl
              rw [heq]
              constructor
              · intro h
                have hsplit : (a.isDigit && b = '-' && c.isDigit) = true ∨
                    ddScan (b :: c :: rest) = true := by
                  simpa using h
                rcases hsplit with h1 | h2
                · simp only [Bool.and_eq_true, decide_eq_true_eq] at h1
                  obtain ⟨⟨hd1, hdash⟩, hd2⟩ := h1
                  exact ⟨[], rest, a, c, hd1, hd2, by simp [hdash]⟩
                · obtain ⟨l, r, d1, d2, h1, h2, heq2⟩ := ih.mp h2
                  exact ⟨a :: l, r, d1, d2, h1, h2, by simp [heq2]⟩
              · rintro ⟨l, r, d1, d2, h1, h2, heq2⟩
                cases l with
                | nil =>
                    simp only [List.nil_append] at heq2
                    injection heq2 with e1 heq3
                    injection heq3 with e2 heq4
                    injection heq4 with e3 _
                    subst e1; subst e2; subst e3
                    simp [h1, h2]
                | cons x l2 =>
                    simp only [List.cons_append] at heq2
                    injection heq2 with e1 heq3
                    have := ih.mpr ⟨l2, r, d1, d2, h1, h2, heq3⟩
                    simp [this]

/-- C4: for every string, the phone-number plausibility check accepts
exactly the strings containing no digit-dash-digit date-range pattern
and at least 10 digits; in particular the date-like string is rejected
and the formatted ten-digit number is accepted. -/
theorem phone_validity_characterization :
    (∀ s : String, is_valid_phone_number s = true ↔
        (¬ DateRangeIn s.toList ∧ 10 ≤ digitCount s)) ∧
    is_valid_phone_number "555-1234567" = false ∧
    is_valid_phone_number "+1 555 123 4567" = true := by
  refine ⟨?_, by decide, by decide⟩
  intro s
  unfold is_valid_phone_number
  by_cases hs : s = ""
  · subst hs
    rw [if_pos rfl]
    constructor
    · intro h; exact absurd h (by simp)
    · rintro ⟨-, h10⟩
      have hz : digitCount "" = 0 := rfl
      rw [hz] at h10
      omega
  · rw [if_neg hs]
    by_cases hd : hasDigitDashDigit s = true
    · rw [if_pos hd]
      constructor
      · intro h; exact absurd h (by simp)
      · rintro ⟨hnd, -⟩
        exact absurd ((ddScan_iff_dateRangeIn s.toList).mp hd) hnd
    · rw [if_neg hd]
      constructor
      · intro h
        refine ⟨fun hc => hd ((ddScan_iff_dateRangeIn s.toList).mpr hc), ?_⟩
        exact of_decide_eq_true h
      · rintro ⟨-, h10⟩
        exact decide_eq_true h10

/-- Applying the phone characterization at the two boundary inputs. -/
theorem phone_validity_characterization_witness :
    is_valid_phone_number "+1 555 123 4567" = true ∧
    is_valid_phone_number "555-1234567" = false :=
  ⟨phone_validity_characterization.2.2, phone_validity_characterization.2.1⟩

/-! ## Claim C1: the discrepancy warning flag -/

/-- C1: for a receipt accepted by the config-module validator whose
total parses to a positive number and whose line-item prices all parse,
the returned DiscrepancyWarning is True when the relative deviation of
the price sum from the total exceeds 2 percent, and is the default
False when the deviation is within 2 percent and the incoming record
did not already carry the flag. -/
theorem receipt_discrepancy_flag (data out : RecordMap) (tv : Value) (t s : ℚ)
    (items : List Elem)
    (htv : lookup data "TotalAmount" = some tv)
    (ht : tv.toFloat = some t)
    (htpos : 0 < t)
    (hli : lookup data "LineItems" = some (.list items))
    (hs : sumPrices items = some s)
    (hok : validate_receipt_output data = .ok out) :
    ((2 : ℚ) / 100 < |s - t| / t →
        lookup out "DiscrepancyWarning" = some (.prim (.bool true))) ∧
    (|s - t| / t ≤ 2 / 100 → isAbsentOrNull data "DiscrepancyWarning" = true →
        lookup out "DiscrepancyWarning" = some (.prim (.bool false))) := by
  obtain ⟨hreq, hlic, hdisc⟩ := validate_receipt_ok_parts data out hok
  set V := buildValidated receiptRequired receiptOptional defaultForReceipt data with hV
  have hTV : lookup V "TotalAmount" = some tv := by
    rw [hV, lookup_bv_receipt_total, htv]; rfl
  have hLI : lookup V "LineItems" = some (.list items) := by
    rw [hV, lookup_bv_receipt_items, hli]; rfl
  have hVt : lookupD V "TotalAmount" (.prim .null) = tv := by simp [lookupD, hTV]
  have hVl : lookupD V "LineItems" (.prim .null) = Value.list items := by
    simp [lookupD, hLI]
  unfold discrepancyStep at hdisc
  rw [if_pos (by simp [hTV, hLI])] at hdisc
  rw [hVl, hVt] at hdisc
  simp only [iterForSum, hs, ht] at hdisc
  constructor
  · intro hdev
    rw [if_pos ⟨htpos, hdev⟩] at hdisc
    injection hdisc with h2
    subst h2
    exact lookup_setKey_self V "DiscrepancyWarning" _
  · intro hdev hab
    have hnc : ¬ (0 < t ∧ (2 : ℚ) / 100 < |s - t| / t) := by
      rintro ⟨-, hgt⟩
      exact absurd hgt (not_lt.mpr hdev)
    rw [if_neg hnc] at hdisc
    injection hdisc with h2
    subst h2
    rw [hV]
    exact lookup_bv_receipt_flag data hab

def discrepancyDemoReceipt : RecordMap :=
  [("StoreName", .prim (.str "Shop")),
   ("TotalAmount", .prim (.str "10.00")),
   ("LineItems", .list [.obj [("name", .str "Milk"), ("price", .str "3.99")],
                        .obj [("name", .str "Bread"), ("price", .str "2.49")]])]

def discrepancyDemoValidated : RecordMap :=
  [("StoreName", .prim (.str "Shop")),
   ("TotalAmount", .prim (.str "10.00")),
   ("LineItems", .list [.obj [("name", .str "Milk"), ("price", .str "3.99")],
                        .obj [("name", .str "Bread"), ("price", .str "2.49")]]),
   ("StoreAddress", .prim .null), ("StorePhone", .prim .null),
   ("DateOfPurchase", .prim .null), ("TransactionTime", .prim .null),
   ("ReceiptID", .prim .null), ("Subtotal", .prim .null), ("Tax", .prim .null),
   ("PaymentMethod", .prim .null), ("CardLast4Digits", .prim .null),
   ("DiscrepancyWarning", .prim (.bool true))]

/-- Applying the discrepancy theorem to the concrete scenario of the
specification: items 3.99 and 2.49 against a stated total of 10.00
(35.2 percent deviation) yields a raised warning flag. -/
theorem receipt_discrepancy_flag_witness :
    lookup discrepancyDemoValidated "DiscrepancyWarning" =
      some (.prim (.bool true)) :=
  (receipt_discrepancy_flag discrepancyDemoReceipt discrepancyDemoValidated
      (.prim (.str "10.00")) 10 (162 / 25)
      [.obj [("name", .str "Milk"), ("price", .str "3.99")],
       .obj [("name", .str "Bread"), ("price", .str "2.49")]]
      (by decide) (by decide) (by decide) (by decide) (by decide)
      (by decide)).1 (by decide)

/-! ## Claim C9: the skip and frame conditions of the discrepancy block -/

/-- C9: the discrepancy block is skipped entirely when TotalAmount is
absent (at validator level the record is rejected before the block even
runs) or parses to zero, leaving the record untouched; and in every
completed run it changes no field other than DiscrepancyWarning. -/
theorem discrepancy_skip_and_frame :
    (∀ d : RecordMap, lookup d "TotalAmount" = none → discrepancyStep d = .ok d) ∧
    (∀ (d r : RecordMap) (tv : Value), discrepancyStep d = .ok r →
        lookup d "TotalAmount" = some tv → tv.toFloat = some 0 → r = d) ∧
    (∀ (d r : RecordMap) (k : String), discrepancyStep d = .ok r →
        k ≠ "DiscrepancyWarning" → lookup r k = lookup d k) ∧
    (∀ data : RecordMap, lookup data "TotalAmount" = none →
        ∃ g, validate_receipt_output data = .error (.requiredMissing g "receipt")) := by
  refine ⟨discrepancyStep_skip_absent,
    fun d r tv h htv hz => discrepancyStep_skip_zero d r tv h htv hz,
    fun d r k h hk => discrepancyStep_frame d r k h hk, ?_⟩
  intro data hnone
  obtain ⟨g, hg, hab, herr⟩ := requiredCheck_error_of_exists "receipt" receiptRequired data
    ⟨"TotalAmount", by simp [receiptRequired], by simp [isAbsentOrNull, hnone]⟩
  exact ⟨g, by simp [validate_receipt_output, Bind.bind, Except.bind, herr]⟩

def skipDemoNoTotal : RecordMap :=
  [("StoreName", .prim (.str "Shop")), ("LineItems", .list [])]

def skipDemoZeroTotal : RecordMap :=
  [("StoreName", .prim (.str "Shop")), ("TotalAmount", .prim (.str "0")),
   ("LineItems", .list []), ("DiscrepancyWarning", .prim (.bool false))]

def frameDemoIn : RecordMap :=
  [("StoreName", .prim (.str "Shop")), ("TotalAmount", .prim (.str "10.00")),
   ("LineItems", .list [.obj [("name", .str "Milk"), ("price", .str "3.99")]]),
   ("DiscrepancyWarning", .prim (.bool false))]

def frameDemoOut : RecordMap :=
  [("StoreName", .prim (.str "Shop")), ("TotalAmount", .prim (.str "10.00")),
   ("LineItems", .list [.obj [("name", .str "Milk"), ("price", .str "3.99")]]),
   ("DiscrepancyWarning", .prim (.bool true))]

/-- Applying the skip and frame theorem at concrete records: a record
with no TotalAmount is left untouched, a record with a zero total is
left untouched, and a run that raises the flag leaves StoreName
unchanged. -/
theorem discrepancy_skip_and_frame_witness :
    discrepancyStep skipDemoNoTotal = .ok skipDemoNoTotal ∧
    skipDemoZeroTotal = skipDemoZeroTotal ∧
    lookup frameDemoOut "StoreName" = lookup frameDemoIn "StoreName" :=
  ⟨discrepancy_skip_and_frame.1 skipDemoNoTotal (by decide),
   discrepancy_skip_and_frame.2.1 skipDemoZeroTotal skipDemoZeroTotal
     (.prim (.str "0")) (by decide) (by decide) (by decide),
   discrepancy_skip_and_frame.2.2.1 frameDemoIn frameDemoOut "StoreName"
     (by decide) (by decide)⟩

/-! ## Claim C5: required-field enforcement -/

def allNullUtilsReceipt : RecordMap :=
  [("MerchantName", .prim .null), ("TotalAmount", .prim .null),
   ("DateOfPurchase", .prim .null), ("Items", .prim .null),
   ("PaymentMethod", .prim .null)]

/-- C5 counterexample: the boolean receipt validator in utils accepts a
record in which every expected field, including MerchantName, is
present but null - contradicting the claim that any null required
field makes the validator fail. -/
theorem required_fields_counterexample :
    utils_validate_receipt_output allNullUtilsReceipt = true ∧
    lookup allNullUtilsReceipt "MerchantName" = some (.prim .null) := by
  exact ⟨by decide, by decide⟩

/-- C5 (amended): the three config-module validators raise an error
naming a missing required field whenever some required field is absent
or null, and every record they return carries all required fields
present and non-null; the boolean utils validator only rejects records
in which a required key is absent (a present null passes it). -/
theorem required_fields_validators :
    (∀ data : RecordMap,
       ((∃ f ∈ receiptRequired, isAbsentOrNull data f = true) →
         ∃ g ∈ receiptRequired, isAbsentOrNull data g = true ∧
           validate_receipt_output data = .error (.requiredMissing g "receipt")) ∧
       (∀ out, validate_receipt_output data = .ok out →
         ∀ f ∈ receiptRequired, ∃ v, lookup out f = some v ∧ v ≠ .prim .null)) ∧
    (∀ data : RecordMap,
       ((∃ f ∈ resumeRequired, isAbsentOrNull data f = true) →
         ∃ g ∈ resumeRequired, isAbsentOrNull data g = true ∧
           validate_resume_output data = .error (.requiredMissing g "resume")) ∧
       (∀ out, validate_resume_output data = .ok out →
         ∀ f ∈ resumeRequired, ∃ v, lookup out f = some v ∧ v ≠ .prim .null)) ∧
    (∀ data : RecordMap,
       ((∃ f ∈ licenseRequired, isAbsentOrNull data f = true) →
         ∃ g ∈ licenseRequired, isAbsentOrNull data g = true ∧
           validate_license_output data = .error (.requiredMissing g "license")) ∧
       (∀ out, validate_license_output data = .ok out →
         ∀ f ∈ licenseRequired, ∃ v, lookup out f = some v ∧ v ≠ .prim .null)) ∧
    (∀ data : RecordMap,
       (∃ f ∈ utilsReceiptFields.map Prod.fst, lookup data f = none) →
       utils_validate_receipt_output data = false) := by
  refine ⟨?_, ?_, ?_, ?_⟩
  · intro data
    constructor
    · intro hex
      obtain ⟨g, hg, hab, herr⟩ :=
        requiredCheck_error_of_exists "receipt" receiptRequired data hex
      exact ⟨g, hg, hab,
        by simp [validate_receipt_output, Bind.bind, Except.bind, herr]⟩
    · intro out hok f hf
      obtain ⟨hreq, hlic, hdisc⟩ := validate_receipt_ok_parts data out hok
      have hab := requiredCheck_ok_mem "receipt" receiptRequired data hreq f hf
      obtain ⟨v, hv, hvne⟩ := (isAbsentOrNull_false_iff data f).mp hab
      have hfr : lookup out f =
          lookup (buildValidated receiptRequired receiptOptional defaultForReceipt data) f := by
        refine discrepancyStep_frame _ _ f hdisc ?_
        intro hc
        subst hc
        simp [receiptRequired] at hf
      rw [hfr]
      have hf3 : f = "StoreName" ∨ f = "TotalAmount" ∨ f = "LineItems" := by
        simpa [receiptRequired] using hf
      rcases hf3 with h | h | h <;> subst h
      · rw [lookup_bv_receipt_store, hv]; exact ⟨v, rfl, hvne⟩
      · rw [lookup_bv_receipt_total, hv]; exact ⟨v, rfl, hvne⟩
      · rw [lookup_bv_receipt_items, hv]; exact ⟨v, rfl, hvne⟩
  · intro data
    constructor
    · intro hex
      obtain ⟨g, hg, hab, herr⟩ :=
        requiredCheck_error_of_exists "resume" resumeRequired data hex
      exact ⟨g, hg, hab,
        by simp [validate_resume_output, Bind.bind, Except.bind, herr]⟩
    · intro out hok f hf
      have hsh : f = "FullName" := by simpa [resumeRequired] using hf
      subst hsh
      unfold validate_resume_output at hok
      simp only [Bind.bind, Except.bind] at hok
      cases hr : requiredCheck "resume" resumeRequired data with
      | error e => rw [hr] at hok; exact absurd hok (by simp)
      | ok u =>
          cases u
          rw [hr] at hok
          simp only [pure, Except.pure] at hok
          injection hok with hok
          have hab := requiredCheck_ok_mem "resume" resumeRequired data hr "FullName"
            (by simp [resumeRequired])
          obtain ⟨v, hv, hvne⟩ := (isAbsentOrNull_false_iff data "FullName").mp hab
          have hsh2 : lookup out "FullName" =
              some ((lookup data "FullName").getD (.prim .null)) := by
            rw [← hok]; rfl
          rw [hsh2, hv]
          exact ⟨v, rfl, hvne⟩
  · intro data
    constructor
    · intro hex
      obtain ⟨g, hg, hab, herr⟩ :=
        requiredCheck_error_of_exists "license" licenseRequired data hex
      exact ⟨g, hg, hab,
        by simp [validate_license_output, Bind.bind, Except.bind, herr]⟩
    · intro out hok f hf
      have hsh : f = "Name" := by simpa [licenseRequired] using hf
      subst hsh
      unfold validate_license_output at hok
      simp only [Bind.bind, Except.bind] at hok
      cases hr : requiredCheck "license" licenseRequired data with
      | error e => rw [hr] at hok; exact absurd hok (by simp)
      | ok u =>
          cases u
          rw [hr] at hok
          simp only [pure, Except.pure] at hok
          injection hok with hok
          have hab := requiredCheck_ok_mem "license" licenseRequired data hr "Name"
            (by simp [licenseRequired])
          obtain ⟨v, hv, hvne⟩ := (isAbsentOrNull_false_iff data "Name").mp hab
          have hsh2 : lookup out "Name" =
              some ((lookup data "Name").getD (.prim .null)) := by
            rw [← hok]; rfl
          rw [hsh2, hv]
          exact ⟨v, rfl, hvne⟩
  · intro data hex
    obtain ⟨f, hf, hnone⟩ := hex
    obtain ⟨kv, hkv, hkvf⟩ := List.mem_map.mp hf
    have hall : utilsReceiptFields.all (fun kv => (lookup data kv.1).isSome) = false := by
      rw [List.all_eq_false]
      exact ⟨kv, hkv, by simp [hkvf, hnone]⟩
    simp [utils_validate_receipt_output, utilsFieldsOk, hall]

def c5DemoReceipt : RecordMap :=
  [("StoreName", .prim (.str "Shop")), ("TotalAmount", .prim (.str "0.00")),
   ("LineItems", .list [])]

def c5DemoOut : RecordMap :=
  [("StoreName", .prim (.str "Shop")), ("TotalAmount", .prim (.str "0.00")),
   ("LineItems", .list []),
   ("StoreAddress", .prim .null), ("StorePhone", .prim .null),
   ("DateOfPurchase", .prim .null), ("TransactionTime", .prim .null),
   ("ReceiptID", .prim .null), ("Subtotal", .prim .null), ("Tax", .prim .null),
   ("PaymentMethod", .prim .null), ("CardLast4Digits", .prim .null),
   ("DiscrepancyWarning", .prim (.bool false))]

/-- Applying the required-field theorem at a concrete accepted record:
its StoreName is not null. -/
theorem required_fields_validators_witness :
    lookup c5DemoOut "StoreName" ≠ some (.prim .null) := by
  obtain ⟨v, hv, hne⟩ := (required_fields_validators.1 c5DemoReceipt).2 c5DemoOut
    (by decide) "StoreName" (by simp [receiptRequired])
  rw [hv]
  intro hc
  injection hc with hc
  exact hne hc

/-! ## Claim C8: line-item validation -/

def quantityLessReceipt : RecordMap :=
  [("MerchantName", .prim (.str "Walmart")), ("TotalAmount", .prim (.str "3.99")),
   ("DateOfPurchase", .prim (.str "01/15/2024")),
   ("Items", .list [.obj [("name", .str "Milk"), ("price", .str "3.99")]]),
   ("PaymentMethod", .prim (.str "Cash"))]

/-- C8 counterexample: an item that has name and price but no quantity
key is rejected by the boolean utils receipt validator (its per-item
check requires the quantity key), refuting the claim that such an item
still validates. -/
theorem line_item_counterexample :
    itemHas [("name", Prim.str "Milk"), ("price", Prim.str "3.99")] "name" = true ∧
    itemHas [("name", Prim.str "Milk"), ("price", Prim.str "3.99")] "price" = true ∧
    utils_validate_receipt_output quantityLessReceipt = false := by
  exact ⟨by decide, by decide, by decide⟩

/-- C8 (amended): in the config-module receipt validator every line
item must be a dict with a truthy name and a non-None price, a
violation fails the whole validation with an error carrying the index
of the first malformed item, and quantity is not inspected there; the
boolean utils validator instead demands the quantity key on every
item. -/
theorem line_item_validation (data : RecordMap) (items : List Elem) :
    (lookup data "LineItems" = some (.list items) →
      requiredCheck "receipt" receiptRequired data = .ok () →
      (∃ it ∈ items, itemBad it = true) →
      ∃ j, j < items.length ∧ itemBad (items.getD j (.prim .null)) = true ∧
        ∃ e, validate_receipt_output data = .error e ∧ e.itemIndex = some j) ∧
    ((∀ it ∈ items, itemBad it = false) → checkLineItems 0 items = .ok ()) ∧
    (∀ kvs : List (String × Prim), Elem.obj kvs ∈ items →
      itemHas kvs "quantity" = false → utilsItemsOk items = false) := by
  refine ⟨?_, ?_, ?_⟩
  · intro hli hreq hex
    obtain ⟨k, hk, hbk, e, he, hidx⟩ := checkLineItems_error_of_bad items hex 0
    have hlic : lineItemsCheck data = .error e := by
      unfold lineItemsCheck
      simp only [hli]
      exact he
    refine ⟨k, hk, hbk, e, ?_, by simpa using hidx⟩
    simp [validate_receipt_output, Bind.bind, Except.bind, hreq, hlic]
  · intro h
    exact checkLineItems_ok_of_good items h 0
  · intro kvs hmem hq
    unfold utilsItemsOk
    rw [List.all_eq_false]
    exact ⟨.obj kvs, hmem, by simp [hq]⟩

/-- Applying the line-item theorem at a concrete item list: a
quantity-less item with name and price passes the config-module check
and fails the utils check. -/
theorem line_item_validation_witness :
    checkLineItems 0 [Elem.obj [("name", .str "Milk"), ("price", .str "3.99")]] = .ok () ∧
    utilsItemsOk [Elem.obj [("name", .str "Milk"), ("price", .str "3.99")]] = false :=
  ⟨(line_item_validation [] [Elem.obj [("name", .str "Milk"), ("price", .str "3.99")]]).2.1
      (by decide),
   (line_item_validation [] [Elem.obj [("name", .str "Milk"), ("price", .str "3.99")]]).2.2
      [("name", .str "Milk"), ("price", .str "3.99")] (by simp) (by decide)⟩

/-! ## Claims C3 and C10: resume merging and record shape -/

/-- The value of any canonical field after parse_resume: the model
value (with a null default) when the deterministic value was missing or
invalid, the deterministic value otherwise. -/
theorem parse_resume_lookup (o : ResumeOracles) (gemini : String → RecordMap)
    (text f : String) (hf : f ∈ RESUME_FIELDS) :
    lookup (parse_resume o gemini text) f =
      (if resumeFieldInvalid f (lookup (fast_regex_resume_parse o text) f) then
        some ((lookup (gemini text) f).getD (.prim .null))
       else lookup (fast_regex_resume_parse o text) f) := by
  unfold parse_resume
  by_cases hemp : (RESUME_FIELDS.filter
      (fun g => resumeFieldInvalid g (lookup (fast_regex_resume_parse o text) g))).isEmpty
  · rw [if_pos hemp]
    have hpred : resumeFieldInvalid f (lookup (fast_regex_resume_parse o text) f) = false := by
      by_contra hc
      have hc2 : resumeFieldInvalid f (lookup (fast_regex_resume_parse o text) f) = true := by
        revert hc
        cases resumeFieldInvalid f (lookup (fast_regex_resume_parse o text) f) <;> simp
      have hmem : f ∈ RESUME_FIELDS.filter
          (fun g => resumeFieldInvalid g (lookup (fast_regex_resume_parse o text) g)) :=
        List.mem_filter.mpr ⟨hf, hc2⟩
      rw [List.isEmpty_iff] at hemp
      rw [hemp] at hmem
      exact absurd hmem (by simp)
    rw [if_neg (by simp [hpred])]
  · rw [if_neg hemp]
    have hsix : f = "FullName" ∨ f = "Email" ∨ f = "PhoneNumber" ∨ f = "Skills" ∨
        f = "WorkExperience" ∨ f = "Education" := by
      simpa [RESUME_FIELDS] using hf
    rcases hsix with h | h | h | h | h | h <;> subst h
    · exact lookup_foldl_merge (gemini text) []
        ["Email", "PhoneNumber", "Skills", "WorkExperience", "Education"]
        (fast_regex_resume_parse o text) "FullName" (by simp) (by simp)
    · exact lookup_foldl_merge (gemini text) ["FullName"]
        ["PhoneNumber", "Skills", "WorkExperience", "Education"]
        (fast_regex_resume_parse o text) "Email" (by simp) (by simp)
    · exact lookup_foldl_merge (gemini text) ["FullName", "Email"]
        ["Skills", "WorkExperience", "Education"]
        (fast_regex_resume_parse o text) "PhoneNumber" (by simp) (by simp)
    · exact lookup_foldl_merge (gemini text) ["FullName", "Email", "PhoneNumber"]
        ["WorkExperience", "Education"]
        (fast_regex_resume_parse o text) "Skills" (by simp) (by simp)
    · exact lookup_foldl_merge (gemini text) ["FullName", "Email", "PhoneNumber", "Skills"]
        ["Education"]
        (fast_regex_resume_parse o text) "WorkExperience" (by simp) (by simp)
    · exact lookup_foldl_merge (gemini text)
        ["FullName", "Email", "PhoneNumber", "Skills", "WorkExperience"] []
        (fast_regex_resume_parse o text) "Education" (by simp) (by simp)

/-- C3: parse_resume merges by field: every field whose deterministic
value is valid keeps that value, and every missing or invalid field
takes the model value for that field. -/
theorem resume_merge_by_field (o : ResumeOracles) (gemini : String → RecordMap)
    (text f : String) (hf : f ∈ RESUME_FIELDS) :
    (resumeFieldInvalid f (lookup (fast_regex_resume_parse o text) f) = false →
      lookup (parse_resume o gemini text) f =
        lookup (fast_regex_resume_parse o text) f) ∧
    (resumeFieldInvalid f (lookup (fast_regex_resume_parse o text) f) = true →
      lookup (parse_resume o gemini text) f =
        some ((lookup (gemini text) f).getD (.prim .null))) := by
  constructor
  · intro hval
    rw [parse_resume_lookup o gemini text f hf, if_neg (by simp [hval])]
  · intro hinv
    rw [parse_resume_lookup o gemini text f hf, if_pos hinv]

def c3DemoOracles : ResumeOracles :=
  { email := fun _ => none, phone := fun _ => some "03-2020",
    skillsSect := fun _ => none, eduSect := fun _ => none, expSect := fun _ => none }

def c3DemoGemini : String → RecordMap :=
  fun _ => [("PhoneNumber", .prim (.str "+1 555 123 4567"))]

/-- Applying the merge theorem to the scenario of the specification: a
valid deterministic FullName is kept and the date-like deterministic
PhoneNumber is replaced by the model value. -/
theorem resume_merge_by_field_witness :
    lookup (parse_resume c3DemoOracles c3DemoGemini "Jane Doe") "FullName" =
      some (.prim (.str "Jane Doe")) ∧
    lookup (parse_resume c3DemoOracles c3DemoGemini "Jane Doe") "PhoneNumber" =
      some (.prim (.str "+1 555 123 4567")) := by
  constructor
  · have h := (resume_merge_by_field c3DemoOracles c3DemoGemini "Jane Doe" "FullName"
      (by simp [RESUME_FIELDS])).1 (by decide)
    rw [h]
    decide
  · have h := (resume_merge_by_field c3DemoOracles c3DemoGemini "Jane Doe" "PhoneNumber"
      (by simp [RESUME_FIELDS])).2 (by decide)
    rw [h]
    decide

/-- C10: parse_resume always returns a record with exactly the six
canonical keys in their canonical order; a failing model call yields
the empty mapping rather than an error, and then every missing or
invalid deterministic field ends up null. -/
theorem resume_record_shape :
    (∀ (o : ResumeOracles) (gemini : String → RecordMap) (text : String),
       (parse_resume o gemini text).map Prod.fst = RESUME_FIELDS) ∧
    (∀ msg : String, call_gemini_resume_extraction (.error msg) = []) ∧
    (∀ (o : ResumeOracles) (text f msg : String), f ∈ RESUME_FIELDS →
       resumeFieldInvalid f (lookup (fast_regex_resume_parse o text) f) = true →
       lookup (parse_resume o (fun _ => call_gemini_resume_extraction (.error msg)) text) f
         = some (.prim .null)) := by
  refine ⟨?_, fun _ => rfl, ?_⟩
  · intro o gemini text
    unfold parse_resume
    have hkeys : (fast_regex_resume_parse o text).map Prod.fst = RESUME_FIELDS := rfl
    by_cases hemp : (RESUME_FIELDS.filter
        (fun g => resumeFieldInvalid g (lookup (fast_regex_resume_parse o text) g))).isEmpty
    · rw [if_pos hemp]
      exact hkeys
    · rw [if_neg hemp]
      rw [keys_foldl_merge (gemini text) RESUME_FIELDS (fast_regex_resume_parse o text) ?_]
      · exact hkeys
      · intro f hf
        have hsix : f = "FullName" ∨ f = "Email" ∨ f = "PhoneNumber" ∨ f = "Skills" ∨
            f = "WorkExperience" ∨ f = "Education" := by
          simpa [RESUME_FIELDS] using hf
        rcases hsix with h | h | h | h | h | h <;> subst h <;> exact rfl
  · intro o text f msg hf hinv
    rw [parse_resume_lookup o (fun _ => call_gemini_resume_extraction (.error msg)) text f hf,
      if_pos hinv]
    rfl

def c10DemoOracles : ResumeOracles :=
  { email := fun _ => none, phone := fun _ => none,
    skillsSect := fun _ => none, eduSect := fun _ => none, expSect := fun _ => none }

/-- Applying the shape theorem at a concrete text and a failing model:
the key list is canonical and the invalid PhoneNumber is left null. -/
theorem resume_record_shape_witness :
    (parse_resume c10DemoOracles
        (fun _ => call_gemini_resume_extraction (.error "API call failed")) "Jane Doe").map
      Prod.fst = RESUME_FIELDS ∧
    lookup (parse_resume c10DemoOracles
        (fun _ => call_gemini_resume_extraction (.error "API call failed")) "Jane Doe")
      "PhoneNumber" = some (.prim .null) :=
  ⟨resume_record_shape.1 c10DemoOracles
      (fun _ => call_gemini_resume_extraction (.error "API call failed")) "Jane Doe",
   resume_record_shape.2.2 c10DemoOracles "Jane Doe" "PhoneNumber" "API call failed"
      (by simp [RESUME_FIELDS]) (by decide)⟩

/-! ## Claim C6: all-or-nothing deterministic receipt pass -/

/-- A successful model fallback record always passed the utils
validation (the fallback validates before returning). -/
theorem gemini_parse_receipt_valid (api : ℕ → Except String RecordMap)
    (text : String) (r : RecordMap) (h : gemini_parse_receipt api text = .ok r) :
    utils_validate_receipt_output r = true := by
  unfold gemini_parse_receipt at h
  split at h
  · exact absurd h (by simp)
  · split at h
    · injection h with h
      subst h
      assumption
    · exact absurd h (by simp)

/-- C6: the deterministic receipt pass succeeds exactly when all five
field extractors succeed (a single failure raises the typed error and
no partial record is produced), and on such a failure the batch driver
writes the model record wholesale - the output is exactly the record
the fallback returned. -/
theorem receipt_all_or_nothing :
    (∀ (o : ReceiptOracles) (text : String),
       isOkB (parse_receipt o text) =
         (isOkB (extract_merchant_name o text) && isOkB (extract_date o text) &&
          isOkB (extract_total o text) && isOkB (extract_items o text) &&
          isOkB (extract_payment_method o text))) ∧
    (∀ (o : ReceiptOracles) (api : ℕ → Except String RecordMap) (text : String)
       (e : ReceiptErr) (r : RecordMap),
       parse_receipt o text = .error e → gemini_parse_receipt api text = .ok r →
       (processReceiptFile o api text).result = some r) := by
  constructor
  · intro o text
    unfold parse_receipt
    simp only [Bind.bind, Except.bind]
    cases h1 : extract_merchant_name o text with
    | error e => simp [isOkB]
    | ok m =>
        cases h2 : extract_date o text with
        | error e => simp [isOkB]
        | ok d =>
            cases h3 : extract_total o text with
            | error e => simp [isOkB]
            | ok t =>
                cases h4 : extract_items o text with
                | error e => simp [isOkB]
                | ok its =>
                    cases h5 : extract_payment_method o text with
                    | error e => simp [isOkB]
                    | ok pm => simp [isOkB, pure, Except.pure]
  · intro o api text e r hpr hok
    unfold processReceiptFile
    simp only [hpr]
    unfold geminiBranchOutcome
    simp only [hok, gemini_parse_receipt_valid api text r hok, if_true]

def c6DemoOracles : ReceiptOracles :=
  { merchant := fun _ _ => none, dateGroups := fun _ _ => none,
    total := fun _ _ => none, item := fun _ _ => none, payment := fun _ _ => none }

def c6DemoModelRecord : RecordMap :=
  [("MerchantName", .prim (.str "Walmart")), ("TotalAmount", .prim (.str "45.67")),
   ("DateOfPurchase", .prim (.str "2024-01-15")),
   ("Items", .list [.obj [("name", .str "Milk"), ("quantity", .str "1"),
                          ("price", .str "3.99")]]),
   ("PaymentMethod", .prim (.str "Credit Card"))]

def c6DemoApi : ℕ → Except String RecordMap := fun _ => .ok c6DemoModelRecord

/-- Applying the all-or-nothing theorem to a text on which the
deterministic pass fails: the written record is exactly the model
record. -/
theorem receipt_all_or_nothing_witness :
    (processReceiptFile c6DemoOracles c6DemoApi "Receipt text").result =
      some c6DemoModelRecord :=
  receipt_all_or_nothing.2 c6DemoOracles c6DemoApi "Receipt text" .merchant
    c6DemoModelRecord (by decide) (by decide)

/-! ## Claim C7: the model retry policy -/

/-- C7 counterexample: a failing model call on the resume extraction
path makes a single attempt and returns the empty mapping - no retry,
no backoff, and no terminal error is raised. -/
theorem model_retry_counterexample :
    call_gemini_resume_extraction (.error "503 Service Unavailable") = [] := rfl

/-- The number of sleeps reported by the retry loop is bounded by the
attempt budget. -/
theorem retryLoop_sleep_bound (expected : List String)
    (api : ℕ → Except String RecordMap) :
    ∀ (fz a : ℕ) (d : RecordMap) (n : ℕ),
      retryLoop expected api a fz = .ok (d, n) → n < a + fz := by
  intro fz
  induction fz with
  | zero => intro a d n h; exact absurd h (by simp [retryLoop])
  | succ fu ih =>
      intro a d n h
      unfold retryLoop at h
      split at h
      · injection h with h
        injection h with h1 h2
        omega
      · split at h
        · exact absurd h (by simp)
        · have := ih (a + 1) d n h
          omega

/-- C7 (amended): for license and receipt extraction requests, the
loop makes at most max_retries + 1 = 3 attempts with one fixed sleep
between consecutive attempts; two failures followed by a success yield
the third attempt output after exactly 2 sleeps, and three failures
raise the terminal error.  The resume extraction instead makes one
attempt and returns an empty mapping on failure (see the
counterexample). -/
theorem model_retry_policy :
    (∀ (api : ℕ → Except String RecordMap) (text dt : String) (d : RecordMap),
       strContains text "RETRY_TEST" = false → (dt = "license" ∨ dt = "receipt") →
       isOkB (attemptOutcome (expectedKeysFor dt) (api 0)) = false →
       isOkB (attemptOutcome (expectedKeysFor dt) (api 1)) = false →
       attemptOutcome (expectedKeysFor dt) (api 2) = .ok d →
       extract_fields_from_text api text dt = .ok (d, 2)) ∧
    (∀ (api : ℕ → Except String RecordMap) (text dt : String),
       strContains text "RETRY_TEST" = false → (dt = "license" ∨ dt = "receipt") →
       (∀ k, k ≤ 2 → isOkB (attemptOutcome (expectedKeysFor dt) (api k)) = false) →
       ∃ msg, extract_fields_from_text api text dt = .error msg) ∧
    (∀ (api : ℕ → Except String RecordMap) (text dt : String) (d : RecordMap) (n : ℕ),
       extract_fields_from_text api text dt = .ok (d, n) → n ≤ 2) ∧
    (∀ msg : String, call_gemini_resume_extraction (.error msg) = []) := by
  have hko : ∀ (exp : List String) (resp : Except String RecordMap),
      isOkB (attemptOutcome exp resp) = false →
      ∃ e, attemptOutcome exp resp = .error e := by
    intro exp resp h
    cases ha : attemptOutcome exp resp with
    | ok d => rw [ha] at h; simp [isOkB] at h
    | error e => exact ⟨e, rfl⟩
  refine ⟨?_, ?_, ?_, fun _ => rfl⟩
  · intro api text dt d hrt hdt h0 h1 h2
    unfold extract_fields_from_text
    rw [if_neg (by simp [hrt])]
    rw [if_neg (by rcases hdt with h | h <;> subst h <;> simp)]
    obtain ⟨e0, he0⟩ := hko _ _ h0
    obtain ⟨e1, he1⟩ := hko _ _ h1
    show retryLoop (expectedKeysFor dt) api 0 (max_retries + 1) = .ok (d, 2)
    unfold retryLoop
    simp only [he0, max_retries]
    rw [if_neg (by omega)]
    unfold retryLoop
    simp only [he1]
    rw [if_neg (by omega)]
    unfold retryLoop
    simp only [h2]
  · intro api text dt hrt hdt hall
    unfold extract_fields_from_text
    rw [if_neg (by simp [hrt])]
    rw [if_neg (by rcases hdt with h | h <;> subst h <;> simp)]
    obtain ⟨e0, he0⟩ := hko _ _ (hall 0 (by omega))
    obtain ⟨e1, he1⟩ := hko _ _ (hall 1 (by omega))
    obtain ⟨e2, he2⟩ := hko _ _ (hall 2 (by omega))
    refine ⟨"Field extraction failed after 3 attempts: " ++ e2, ?_⟩
    show retryLoop (expectedKeysFor dt) api 0 (max_retries + 1) = _
    unfold retryLoop
    simp only [he0, max_retries]
    rw [if_neg (by omega)]
    unfold retryLoop
    simp only [he1]
    rw [if_neg (by omega)]
    unfold retryLoop
    simp [he2]
  · intro api text dt d n h
    unfold extract_fields_from_text at h
    split at h
    · exact absurd h (by simp)
    · split at h
      · exact absurd h (by simp)
      · have := retryLoop_sleep_bound (expectedKeysFor dt) api (max_retries + 1) 0 d n h
        simp [max_retries] at this
        omega

def c7DemoRecord : RecordMap :=
  [("Name", .prim (.str "Collins Cmcnooncrao")), ("DateOfBirth", .prim (.str "1985-03-15")),
   ("LicenseNumber", .prim (.str "DL123456789")), ("IssuingState", .prim .null),
   ("ExpiryDate", .prim .null)]

def c7DemoApi : ℕ → Except String RecordMap :=
  fun k => if k < 2 then .error "timeout" else .ok c7DemoRecord

/-- Applying the retry theorem to a model that fails twice and succeeds
on the third attempt: the result is the third attempt output with
exactly 2 sleeps. -/
theorem model_retry_policy_witness :
    extract_fields_from_text c7DemoApi "Scanned license text" "license" =
      .ok (c7DemoRecord, 2) :=
  model_retry_policy.1 c7DemoApi "Scanned license text" "license" c7DemoRecord
    (by decide) (Or.inl rfl) (by decide) (by decide) (by decide)

/-! ## Claim C2: empty and whitespace-only text -/

def c2DemoEnv : GenericEnv :=
  { promptExists := true, llm := fun _ => .error "timeout" }

/-- C2 counterexample: whitespace-only OCR text passes the no-text
guard of the generic pipeline (Python truthiness tests only emptiness),
so the model call is reached - the cascade neither fails with
NoTextExtracted nor avoids invoking the model. -/
theorem empty_text_counterexample :
    (process_document c2DemoEnv " " "receipt").2 = true ∧
    (process_document c2DemoEnv " " "receipt").1 = .error (.llmFailed "timeout") :=
  ⟨rfl, rfl⟩

/-- C2 (amended): the generic pipeline fails immediately with the
no-text error, without invoking the model, exactly on empty extracted
text; the receipt batch driver has no empty-text guard at all - on
empty text its deterministic parser fails at the merchant extractor and
the model fallback IS invoked. -/
theorem no_text_handling :
    (∀ (env : GenericEnv) (dt : String),
       process_document env "" dt = (.error .noText, false)) ∧
    (∀ o : ReceiptOracles, parse_receipt o "" = .error .merchant) ∧
    (∀ (o : ReceiptOracles) (api : ℕ → Except String RecordMap),
       (processReceiptFile o api "").modelInvoked = true) := by
  have hpr : ∀ o : ReceiptOracles, parse_receipt o "" = .error .merchant :=
    fun o => rfl
  refine ⟨?_, hpr, ?_⟩
  · intro env dt
    unfold process_document
    rw [if_pos rfl]
  · intro o api
    unfold processReceiptFile
    simp only [hpr o]
    rfl

end DocIQ
